import Mathlib

/-!
Shallow embedding of the transaction-ledger HTTP service in
src/Deployments/go/main.go: the Prometheus instrument configuration
(initMetrics), the request-instrumentation middleware (metricsMiddleware),
the decorating response writer (responseWriter), and the three transaction
handlers (createTransaction, listTransactions, getTransaction).

The store and the network are external collaborators, so they enter the
model as explicit inputs: the body-decode outcome, the insert/query/lookup
behaviour of the database, and the underlying http.ResponseWriter.  Metric
state is a record of label-indexed counters and observation lists; handlers
are straight-line code, so a handler execution is faithfully represented by
the list of writer operations it performs, its effect on the metrics
record, and the list of store operations it issues.
-/

namespace SreTech

/-- JSON documents as produced by encoding/json in main.go. -/
inductive Json where
  | null : Json
  | str (s : String) : Json
  | num (q : ℚ) : Json
  | arr (elems : List Json) : Json
  | obj (fields : List (String × Json)) : Json
  deriving Repr

/-- Bytes written to a response body: either one JSON document, as written by
json.NewEncoder(w).Encode, or plain text, as written by http.Error (the
message followed by a newline). -/
inductive Chunk where
  | jsonDoc (j : Json) : Chunk
  | text (s : String) : Chunk

/-- The underlying http.ResponseWriter handed to the middleware by net/http.
It logs the WriteHeader and Write calls it receives, and its Write behaviour
(the (count, error) result Go returns) is an arbitrary function of the chunk,
since the transport is an external collaborator. -/
structure UnderlyingWriter where
  headerCalls : List Int
  writeCalls : List Chunk
  writeResult : Chunk → Int × Option String

/-- Record a WriteHeader call on the underlying writer. -/
def UnderlyingWriter.doWriteHeader (u : UnderlyingWriter) (code : Int) : UnderlyingWriter :=
  { u with headerCalls := u.headerCalls ++ [code] }

/-- Record a Write call on the underlying writer and return its result. -/
def UnderlyingWriter.doWrite (u : UnderlyingWriter) (b : Chunk) :
    UnderlyingWriter × (Int × Option String) :=
  ({ u with writeCalls := u.writeCalls ++ [b] }, u.writeResult b)

/-- Decorating response writer from main.go (lines 230-234): embeds the
underlying writer and keeps a statusCode field and a size field. -/
structure responseWriter where
  underlying : UnderlyingWriter
  statusCode : Int
  size : Int

/-- WriteHeader from main.go (lines 236-239): stores the code in statusCode,
then forwards the call to the underlying writer. -/
def responseWriter.WriteHeader (rw : responseWriter) (code : Int) : responseWriter :=
  { rw with statusCode := code, underlying := rw.underlying.doWriteHeader code }

/-- Write from main.go (lines 241-245): forwards the chunk to the underlying
writer, adds the count the underlying writer returned to size, and returns
the underlying writer's result unchanged. -/
def responseWriter.Write (rw : responseWriter) (b : Chunk) :
    responseWriter × (Int × Option String) :=
  let step := rw.underlying.doWrite b
  ({ rw with underlying := step.1, size := rw.size + step.2.1 }, step.2)

/-- One call a handler makes against the response writer. -/
inductive WriterOp where
  | writeHeader (code : Int) : WriterOp
  | write (b : Chunk) : WriterOp

/-- Run a handler's writer operations against a response writer in order,
discarding the results of Write as every handler in main.go does. -/
def runWriterOps : List WriterOp → responseWriter → responseWriter
  | [], rw => rw
  | WriterOp.writeHeader c :: rest, rw => runWriterOps rest (rw.WriteHeader c)
  | WriterOp.write b :: rest, rw => runWriterOps rest (rw.Write b).1

/-- Metric state of the registry: each instrument of the App struct, indexed
by its label values.  Counters count increments; histograms keep the list of
observed values; the gauge keeps its current value. -/
structure Metrics where
  httpDuration : String × String × String → List ℚ
  httpRequests : String × String × String → Nat
  txnCounter : String → Nat
  txnValueSum : ℚ
  txnErrorCounter : Nat
  httpRequestSize : String × String → List ℚ
  httpResponseSize : String × String × String → List ℚ

/-- Append an observation to a histogram with three label names. -/
def observeAt3 (f : String × String × String → List ℚ) (k : String × String × String)
    (v : ℚ) : String × String × String → List ℚ :=
  fun k2 => if k2 = k then f k2 ++ [v] else f k2

/-- Append an observation to a histogram with two label names. -/
def observeAt2 (f : String × String → List ℚ) (k : String × String) (v : ℚ) :
    String × String → List ℚ :=
  fun k2 => if k2 = k then f k2 ++ [v] else f k2

/-- Increment a counter with three label names. -/
def incAt3 (f : String × String × String → Nat) (k : String × String × String) :
    String × String × String → Nat :=
  fun k2 => if k2 = k then f k2 + 1 else f k2

/-- Increment a counter with one label name. -/
def incAt1 (f : String → Nat) (k : String) : String → Nat :=
  fun k2 => if k2 = k then f k2 + 1 else f k2

/-- metricsMiddleware from main.go (lines 209-228).  The wrapped handler is
modelled by the writer operations it performs and its effect on the metrics
record; path and method come from the request, contentLength from
r.ContentLength, and duration is the elapsed wall-clock time in seconds.
The middleware builds the decorated writer with statusCode 200 and size 0,
observes the request size when contentLength is positive, runs the handler,
and then records duration, request count and response size, all keyed by
(path, method, strconv.Itoa of the recorded status code). -/
def metricsMiddleware (handlerOps : List WriterOp) (handlerMetrics : Metrics → Metrics)
    (path method : String) (contentLength : Int) (duration : ℚ)
    (u : UnderlyingWriter) (m : Metrics) : Metrics × responseWriter :=
  let wrapped : responseWriter := { underlying := u, statusCode := 200, size := 0 }
  let m1 :=
    if 0 < contentLength then
      { m with httpRequestSize := observeAt2 m.httpRequestSize (path, method) (contentLength : ℚ) }
    else m
  let wrapped2 := runWriterOps handlerOps wrapped
  let m2 := handlerMetrics m1
  let statusCode := toString wrapped2.statusCode
  let m3 := { m2 with
    httpDuration := observeAt3 m2.httpDuration (path, method, statusCode) duration,
    httpRequests := incAt3 m2.httpRequests (path, method, statusCode),
    httpResponseSize :=
      observeAt3 m2.httpResponseSize (path, method, statusCode) ((wrapped2.size : ℚ)) }
  (m3, wrapped2)

/-- Persisted transaction row, with the field set of the Transaction struct.
Time values and the store-assigned id are opaque strings here. -/
structure Transaction where
  ID : String
  Value : ℚ
  Timestamp : String
  Status : String
  CreatedAt : String
  deriving DecidableEq, Repr

/-- Request body of Create, as the TransactionRequest struct. -/
structure TransactionRequest where
  Value : ℚ
  Timestamp : String
  deriving DecidableEq, Repr

/-- JSON encoding of a Transaction following its json struct tags. -/
def encodeTransaction (t : Transaction) : Json :=
  Json.obj [("id", Json.str t.ID), ("value", Json.num t.Value),
    ("timestamp", Json.str t.Timestamp), ("status", Json.str t.Status),
    ("created_at", Json.str t.CreatedAt)]

/-- Outcome of decoding the request body in createTransaction. -/
inductive DecodeResult where
  | decodeErr (msg : String) : DecodeResult
  | decoded (req : TransactionRequest) : DecodeResult

/-- Outcome of the INSERT ... RETURNING query in createTransaction. -/
inductive InsertResult where
  | insertErr (msg : String) : InsertResult
  | inserted (txn : Transaction) : InsertResult

/-- Outcome of scanning one row in listTransactions. -/
inductive RowResult where
  | scanErr (msg : String) : RowResult
  | row (txn : Transaction) : RowResult

/-- Outcome of the SELECT query in listTransactions. -/
inductive QueryResult where
  | queryErr (msg : String) : QueryResult
  | rowsOk (rows : List RowResult) : QueryResult

/-- Outcome of the SELECT ... WHERE id query in getTransaction:
sql.ErrNoRows, another error, or a row. -/
inductive GetResult where
  | noRows : GetResult
  | getErr (msg : String) : GetResult
  | found (txn : Transaction) : GetResult

/-- One operation a handler issues against the store. -/
inductive StoreOp where
  | insertTxn (value : ℚ) (timestamp : String) : StoreOp
  | selectList (limit offset : Int) : StoreOp
  | selectById (id : String) : StoreOp
  deriving DecidableEq, Repr

/-- Execution of one handler on one request: the writer operations it
performs, its effect on the metrics record, and the store operations it
issues, in order. -/
structure HandlerRun where
  ops : List WriterOp
  metricsF : Metrics → Metrics
  storeOps : List StoreOp

/-- createTransaction from main.go (lines 247-283).  The decode outcome of
the body and the insert behaviour of the store are inputs. -/
def createTransaction (body : DecodeResult) (insert : TransactionRequest → InsertResult) :
    HandlerRun :=
  match body with
  | DecodeResult.decodeErr _ =>
      { ops := [WriterOp.writeHeader 400, WriterOp.write (Chunk.text "Invalid request body\n")],
        metricsF := fun m => { m with txnErrorCounter := m.txnErrorCounter + 1 },
        storeOps := [] }
  | DecodeResult.decoded req =>
      if req.Value ≤ 0 then
        { ops := [WriterOp.writeHeader 400,
            WriterOp.write (Chunk.text "Transaction value must be positive\n")],
          metricsF := fun m => { m with txnErrorCounter := m.txnErrorCounter + 1 },
          storeOps := [] }
      else
        match insert req with
        | InsertResult.insertErr _ =>
            { ops := [WriterOp.writeHeader 500,
                WriterOp.write (Chunk.text "Internal server error\n")],
              metricsF := fun m => { m with txnErrorCounter := m.txnErrorCounter + 1 },
              storeOps := [StoreOp.insertTxn req.Value req.Timestamp] }
        | InsertResult.inserted txn =>
            { ops := [WriterOp.writeHeader 201,
                WriterOp.write (Chunk.jsonDoc (encodeTransaction txn))],
              metricsF := fun m => { m with
                txnCounter := incAt1 m.txnCounter "completed",
                txnValueSum := m.txnValueSum + req.Value },
              storeOps := [StoreOp.insertTxn req.Value req.Timestamp] }

/-- Numeric value of a list of decimal digit characters. -/
def digitsToNat (ds : List Char) : Nat :=
  ds.foldl (fun acc c => acc * 10 + (c.toNat - 48)) 0

/-- Model of strconv.Atoi on a 64-bit platform: an optional single sign
followed by at least one decimal digit, rejecting any other character and
any value outside the int64 range. -/
def goAtoi (s : String) : Option Int :=
  match s.data with
  | [] => none
  | c :: rest =>
    let signed : Bool × List Char :=
      if c = '-' then (true, rest)
      else if c = '+' then (false, rest)
      else (false, c :: rest)
    if signed.2 = [] then none
    else if signed.2.all (fun d => d.isDigit) then
      let v : Int :=
        if signed.1 then -(digitsToNat signed.2 : Int) else (digitsToNat signed.2 : Int)
      if -9223372036854775808 ≤ v ∧ v ≤ 9223372036854775807 then some v else none
    else none

/-- Effective limit in listTransactions (lines 286-293): start from 50 and
take a parsed value only when the parameter is nonempty, parses, and lies in
(0, 100]. -/
def parseLimit (l : String) : Int :=
  if l ≠ "" then
    match goAtoi l with
    | some parsed => if 0 < parsed ∧ parsed ≤ 100 then parsed else 50
    | none => 50
  else 50

/-- Effective offset in listTransactions (lines 287-299): start from 0 and
take a parsed value only when the parameter is nonempty, parses, and is
nonnegative. -/
def parseOffset (o : String) : Int :=
  if o ≠ "" then
    match goAtoi o with
    | some parsed => if 0 ≤ parsed then parsed else 0
    | none => 0
  else 0

/-- Rows that scanned successfully, in order; a scan error skips the row,
as the continue in the scan loop does. -/
def decodeRows (rows : List RowResult) : List Transaction :=
  rows.filterMap (fun r => match r with
    | RowResult.scanErr _ => none
    | RowResult.row t => some t)

/-- Encoding of the transactions slice by encoding/json: the handler
declares a nil slice and only appends to it, and Go marshals a nil slice as
null, so an empty result encodes as null while a nonempty one encodes as an
array. -/
def goEncodeTxnSlice (txns : List Transaction) : Json :=
  if txns = [] then Json.null else Json.arr (txns.map encodeTransaction)

/-- listTransactions from main.go (lines 285-328).  The query behaviour of
the store, as a function of the limit and offset it is given, is an input. -/
def listTransactions (limitParam offsetParam : String) (query : Int → Int → QueryResult) :
    HandlerRun :=
  let limit := parseLimit limitParam
  let offset := parseOffset offsetParam
  match query limit offset with
  | QueryResult.queryErr _ =>
      { ops := [WriterOp.writeHeader 500,
          WriterOp.write (Chunk.text "Internal server error\n")],
        metricsF := fun m => m,
        storeOps := [StoreOp.selectList limit offset] }
  | QueryResult.rowsOk rows =>
      { ops := [WriterOp.write (Chunk.jsonDoc (goEncodeTxnSlice (decodeRows rows)))],
        metricsF := fun m => m,
        storeOps := [StoreOp.selectList limit offset] }

/-- getTransaction from main.go (lines 330-356).  The raw path variable id
is passed to the lookup with no validation or parsing. -/
def getTransaction (lookup : String → GetResult) (id : String) : HandlerRun :=
  match lookup id with
  | GetResult.noRows =>
      { ops := [WriterOp.writeHeader 404,
          WriterOp.write (Chunk.text "Transaction not found\n")],
        metricsF := fun m => m,
        storeOps := [StoreOp.selectById id] }
  | GetResult.getErr _ =>
      { ops := [WriterOp.writeHeader 500,
          WriterOp.write (Chunk.text "Internal server error\n")],
        metricsF := fun m => m,
        storeOps := [StoreOp.selectById id] }
  | GetResult.found txn =>
      { ops := [WriterOp.write (Chunk.jsonDoc (encodeTransaction txn))],
        metricsF := fun m => m,
        storeOps := [StoreOp.selectById id] }

/-- Underlying writer that has received no calls yet and whose Write always
reports zero bytes and no error. -/
def silentUnderlying : UnderlyingWriter :=
  { headerCalls := [], writeCalls := [], writeResult := fun _ => (0, none) }

/-- Fresh decorated writer over a given underlying writer, as the middleware
builds it: statusCode 200, size 0. -/
def freshWriter (u : UnderlyingWriter) : responseWriter :=
  { underlying := u, statusCode := 200, size := 0 }

/-- Status code of a handler execution: the code recorded by the decorated
writer after running the handler's operations on a fresh writer.  A handler
that never calls WriteHeader leaves the default 200, matching the implicit
200 of net/http. -/
def handlerStatus (h : HandlerRun) : Int :=
  (runWriterOps h.ops (freshWriter silentUnderlying)).statusCode

/-- JSON documents a handler execution writes to the body, in order. -/
def responseDocs (h : HandlerRun) : List Json :=
  h.ops.filterMap (fun op => match op with
    | WriterOp.write (Chunk.jsonDoc j) => some j
    | _ => none)

/-- One full request through the middleware-wrapped handler, as installed by
r.Use(a.metricsMiddleware) in setupRoutes. -/
def serveWith (h : HandlerRun) (path method : String) (contentLength : Int)
    (duration : ℚ) (u : UnderlyingWriter) (m : Metrics) : Metrics × responseWriter :=
  metricsMiddleware h.ops h.metricsF path method contentLength duration u m

/-- Metrics record with every counter at zero, every histogram empty and the
gauge at zero, as right after initMetrics. -/
def initialMetrics : Metrics :=
  { httpDuration := fun _ => [],
    httpRequests := fun _ => 0,
    txnCounter := fun _ => 0,
    txnValueSum := 0,
    txnErrorCounter := 0,
    httpRequestSize := fun _ => [],
    httpResponseSize := fun _ => [] }

/-- prometheus.ExponentialBuckets start factor count: the library loop
appends the running start and multiplies it by factor, count times. -/
def exponentialBuckets (start factor : ℚ) (count : Nat) : List ℚ :=
  match count with
  | 0 => []
  | Nat.succ n => start :: exponentialBuckets (start * factor) factor n

/-- prometheus DefBuckets, substituted by the client library when
HistogramOpts.Buckets is left unset. -/
def defBuckets : List ℚ :=
  [5/1000, 1/100, 25/1000, 5/100, 1/10, 1/4, 1/2, 1, 5/2, 5, 10]

/-- Static configuration of one histogram instrument: its name, label names
and, when set, its explicit bucket boundaries. -/
structure HistogramSpec where
  name : String
  labelNames : List String
  bucketsOpt : Option (List ℚ)
  deriving DecidableEq, Repr

/-- Boundaries the registry uses for a histogram: the explicit ones when
set, otherwise DefBuckets. -/
def HistogramSpec.effectiveBuckets (h : HistogramSpec) : List ℚ :=
  h.bucketsOpt.getD defBuckets

/-- http_request_duration_seconds from initMetrics (lines 51-57): labels
path, method, status_code; no Buckets field set. -/
def httpDurationSpec : HistogramSpec :=
  { name := "http_request_duration_seconds",
    labelNames := ["path", "method", "status_code"],
    bucketsOpt := none }

/-- http_request_size_bytes from initMetrics (lines 85-92): labels path,
method; Buckets set to ExponentialBuckets 100 10 5. -/
def httpRequestSizeSpec : HistogramSpec :=
  { name := "http_request_size_bytes",
    labelNames := ["path", "method"],
    bucketsOpt := some (exponentialBuckets 100 10 5) }

/-- http_response_size_bytes from initMetrics (lines 94-101): labels path,
method, status_code; Buckets set to ExponentialBuckets 100 10 5. -/
def httpResponseSizeSpec : HistogramSpec :=
  { name := "http_response_size_bytes",
    labelNames := ["path", "method", "status_code"],
    bucketsOpt := some (exponentialBuckets 100 10 5) }

/-- Concrete persisted row used when instantiating theorems at concrete
inputs. -/
def sampleTxn : Transaction :=
  { ID := "1", Value := 150.75, Timestamp := "2025-08-20T14:30:00Z",
    Status := "completed", CreatedAt := "2025-08-20T14:30:05Z" }

/-- Concrete request body matching sampleTxn. -/
def sampleReq : TransactionRequest :=
  { Value := 150.75, Timestamp := "2025-08-20T14:30:00Z" }

/-- Concrete row used when instantiating the List theorems. -/
def rowTxn : Transaction :=
  { ID := "1", Value := 1, Timestamp := "t", Status := "completed", CreatedAt := "c" }

/-- Codes passed to WriteHeader by a list of writer operations, in order. -/
def headerCodes : List WriterOp → List Int
  | [] => []
  | WriterOp.writeHeader c :: rest => c :: headerCodes rest
  | WriterOp.write _ :: rest => headerCodes rest

/-- Chunks passed to Write by a list of writer operations, in order. -/
def writeChunks : List WriterOp → List Chunk
  | [] => []
  | WriterOp.writeHeader _ :: rest => writeChunks rest
  | WriterOp.write b :: rest => b :: writeChunks rest

/-- Last code passed to WriteHeader by a list of writer operations, or the
given default when WriteHeader is never called. -/
def lastCode (ops : List WriterOp) (dflt : Int) : Int :=
  match ops with
  | [] => dflt
  | WriterOp.writeHeader c :: rest => lastCode rest c
  | WriterOp.write _ :: rest => lastCode rest dflt

/-- Helper: the status code recorded after running writer operations is the
code of the last WriteHeader call, or the starting code when WriteHeader is
never called. -/
theorem runWriterOps_statusCode (ops : List WriterOp) (rw : responseWriter) :
    (runWriterOps ops rw).statusCode = lastCode ops rw.statusCode := by
  induction ops generalizing rw with
  | nil => rfl
  | cons op rest ih =>
    cases op with
    | writeHeader c =>
        simp only [runWriterOps, lastCode]
        exact ih (rw.WriteHeader c)
    | write b =>
        simp only [runWriterOps, lastCode]
        exact ih (rw.Write b).1

/-- Helper: running writer operations never changes the Write behaviour of
the underlying writer. -/
theorem runWriterOps_writeResult (ops : List WriterOp) (rw : responseWriter) :
    (runWriterOps ops rw).underlying.writeResult = rw.underlying.writeResult := by
  induction ops generalizing rw with
  | nil => rfl
  | cons op rest ih =>
    cases op with
    | writeHeader c =>
        simp only [runWriterOps]
        exact ih (rw.WriteHeader c)
    | write b =>
        simp only [runWriterOps]
        exact ih (rw.Write b).1

/-- Helper: the size recorded after running writer operations is the starting
size plus the sum of the counts the underlying writer returns for each
written chunk. -/
theorem runWriterOps_size (ops : List WriterOp) (rw : responseWriter) :
    (runWriterOps ops rw).size
      = rw.size + ((writeChunks ops).map (fun b => (rw.underlying.writeResult b).1)).sum := by
  induction ops generalizing rw with
  | nil => simp [runWriterOps, writeChunks]
  | cons op rest ih =>
    cases op with
    | writeHeader c =>
        simp only [runWriterOps, writeChunks]
        exact ih (rw.WriteHeader c)
    | write b =>
        simp only [runWriterOps, writeChunks, List.map_cons, List.sum_cons]
        rw [ih (rw.Write b).1]
        show rw.size + (rw.underlying.writeResult b).1
            + ((writeChunks rest).map (fun c2 => (rw.underlying.writeResult c2).1)).sum
          = rw.size + ((rw.underlying.writeResult b).1
            + ((writeChunks rest).map (fun c2 => (rw.underlying.writeResult c2).1)).sum)
        exact add_assoc _ _ _

/-- Helper: every WriteHeader call is forwarded to the underlying writer in
order. -/
theorem runWriterOps_headerCalls (ops : List WriterOp) (rw : responseWriter) :
    (runWriterOps ops rw).underlying.headerCalls
      = rw.underlying.headerCalls ++ headerCodes ops := by
  induction ops generalizing rw with
  | nil => simp [runWriterOps, headerCodes]
  | cons op rest ih =>
    cases op with
    | writeHeader c =>
        simp only [runWriterOps, headerCodes]
        rw [ih (rw.WriteHeader c)]
        show (rw.underlying.headerCalls ++ [c]) ++ headerCodes rest = _
        simp
    | write b =>
        simp only [runWriterOps, headerCodes]
        exact ih (rw.Write b).1

/-- Helper: every Write call is forwarded to the underlying writer in
order. -/
theorem runWriterOps_writeCalls (ops : List WriterOp) (rw : responseWriter) :
    (runWriterOps ops rw).underlying.writeCalls
      = rw.underlying.writeCalls ++ writeChunks ops := by
  induction ops generalizing rw with
  | nil => simp [runWriterOps, writeChunks]
  | cons op rest ih =>
    cases op with
    | writeHeader c =>
        simp only [runWriterOps, writeChunks]
        exact ih (rw.WriteHeader c)
    | write b =>
        simp only [runWriterOps, writeChunks]
        rw [ih (rw.Write b).1]
        show (rw.underlying.writeCalls ++ [b]) ++ writeChunks rest = _
        simp

/-- Helper: a run containing no WriteHeader operation keeps the default
code. -/
theorem lastCode_of_no_header (ops : List WriterOp) (dflt : Int)
    (h : ∀ c, WriterOp.writeHeader c ∉ ops) : lastCode ops dflt = dflt := by
  induction ops generalizing dflt with
  | nil => rfl
  | cons op rest ih =>
    cases op with
    | writeHeader c => exact absurd (List.mem_cons_self _ _) (h c)
    | write b =>
        simp only [lastCode]
        exact ih dflt (fun c hc => h c (List.mem_cons_of_mem _ hc))

/-- C4 (corrected): the decorating response writer records the last status
code written — a second WriteHeader call overwrites the stored code —
accumulates the cumulative byte count reported by the underlying writer
across all Write calls, and forwards every call to the underlying writer
unchanged, returning the underlying writer's result. -/
theorem responseWriter_decoration (ops : List WriterOp) (rw : responseWriter) :
    (runWriterOps ops rw).statusCode = lastCode ops rw.statusCode
    ∧ (runWriterOps ops rw).size
        = rw.size + ((writeChunks ops).map (fun b => (rw.underlying.writeResult b).1)).sum
    ∧ (runWriterOps ops rw).underlying.headerCalls
        = rw.underlying.headerCalls ++ headerCodes ops
    ∧ (runWriterOps ops rw).underlying.writeCalls
        = rw.underlying.writeCalls ++ writeChunks ops
    ∧ (∀ b, (rw.Write b).2 = rw.underlying.writeResult b) :=
  ⟨runWriterOps_statusCode ops rw, runWriterOps_size ops rw,
   runWriterOps_headerCalls ops rw, runWriterOps_writeCalls ops rw, fun _ => rfl⟩

/-- C4 counterexample: a handler that calls WriteHeader with 200 and then
with 404 leaves 404 recorded, not the first code 200. -/
theorem responseWriter_first_status_counterexample :
    (runWriterOps [WriterOp.writeHeader 200, WriterOp.writeHeader 404]
        (freshWriter silentUnderlying)).statusCode = 404
    ∧ (runWriterOps [WriterOp.writeHeader 200, WriterOp.writeHeader 404]
        (freshWriter silentUnderlying)).statusCode ≠ 200 :=
  ⟨rfl, by decide⟩

/-- C9 (corrected): the two size histograms are configured with
ExponentialBuckets 100 10 5, giving exactly the boundaries 100, 1000, 10000,
100000, 1000000; http_request_duration_seconds sets no Buckets field and so
gets the library's default duration buckets instead. -/
theorem histogram_bucket_boundaries :
    httpRequestSizeSpec.effectiveBuckets = [100, 1000, 10000, 100000, 1000000]
    ∧ httpResponseSizeSpec.effectiveBuckets = [100, 1000, 10000, 100000, 1000000]
    ∧ exponentialBuckets 100 10 5 = [100, 1000, 10000, 100000, 1000000]
    ∧ httpDurationSpec.bucketsOpt = none
    ∧ httpDurationSpec.effectiveBuckets = defBuckets := by
  have hexp : exponentialBuckets 100 10 5 = [100, 1000, 10000, 100000, 1000000] := by
    norm_num [exponentialBuckets]
  have hreq : httpRequestSizeSpec.effectiveBuckets = exponentialBuckets 100 10 5 := rfl
  have hresp : httpResponseSizeSpec.effectiveBuckets = exponentialBuckets 100 10 5 := rfl
  exact ⟨hreq.trans hexp, hresp.trans hexp, hexp, rfl, rfl⟩

/-- C9 counterexample: the duration histogram's effective boundaries are the
default buckets, not the exponential boundaries 100 to 1000000 shared by the
size histograms. -/
theorem httpDuration_buckets_counterexample :
    httpDurationSpec.effectiveBuckets = defBuckets
    ∧ httpDurationSpec.effectiveBuckets ≠ [100, 1000, 10000, 100000, 1000000] :=
  ⟨rfl, by norm_num [HistogramSpec.effectiveBuckets, httpDurationSpec, defBuckets]⟩

/-- C10 (confirmed): the Get handler performs no validation of the path
identifier: its single store operation is a lookup by the unmodified id
string, a store error — which is how an id the store cannot interpret
surfaces — yields 500, only the explicit no-rows result yields 404, and a
found row yields the implicit 200 with the entity as JSON body. -/
theorem getTransaction_forwards_raw_id (lookup : String → GetResult) (id : String) :
    (getTransaction lookup id).storeOps = [StoreOp.selectById id]
    ∧ (lookup id = GetResult.noRows → handlerStatus (getTransaction lookup id) = 404)
    ∧ (∀ msg, lookup id = GetResult.getErr msg →
        handlerStatus (getTransaction lookup id) = 500)
    ∧ (∀ txn, lookup id = GetResult.found txn →
        handlerStatus (getTransaction lookup id) = 200
        ∧ responseDocs (getTransaction lookup id) = [encodeTransaction txn]) := by
  refine ⟨?_, ?_, ?_, ?_⟩
  · cases h : lookup id <;> simp [getTransaction, h]
  · intro h
    simp only [getTransaction, h]
    rfl
  · intro msg h
    simp only [getTransaction, h]
    rfl
  · intro txn h
    simp only [getTransaction, h]
    exact ⟨rfl, rfl⟩

/-- C10 witness: a non-numeric id is forwarded raw to the store; when the
store rejects it, the response is 500, not 400 or 404. -/
theorem getTransaction_forwards_raw_id_witness :
    (getTransaction (fun _ => GetResult.getErr "invalid input syntax") "abc").storeOps
        = [StoreOp.selectById "abc"]
    ∧ handlerStatus (getTransaction (fun _ => GetResult.getErr "invalid input syntax") "abc")
        = 500 :=
  ⟨(getTransaction_forwards_raw_id (fun _ => GetResult.getErr "invalid input syntax") "abc").1,
   (getTransaction_forwards_raw_id (fun _ => GetResult.getErr "invalid input syntax")
      "abc").2.2.1 "invalid input syntax" rfl⟩

/-- C2 (confirmed): when the body decodes, its value is positive and the
insert succeeds, Create responds 201 with the full persisted transaction as
JSON body, increments transactions_total at status completed by exactly one
leaving other statuses unchanged, adds exactly the submitted value to
transactions_value_sum, leaves the error counter unchanged, and issues
exactly the one insert. -/
theorem createTransaction_success_effects (req : TransactionRequest)
    (insert : TransactionRequest → InsertResult) (txn : Transaction) (m : Metrics)
    (hpos : 0 < req.Value) (hins : insert req = InsertResult.inserted txn) :
    (createTransaction (DecodeResult.decoded req) insert).ops
        = [WriterOp.writeHeader 201, WriterOp.write (Chunk.jsonDoc (encodeTransaction txn))]
    ∧ handlerStatus (createTransaction (DecodeResult.decoded req) insert) = 201
    ∧ ((createTransaction (DecodeResult.decoded req) insert).metricsF m).txnCounter "completed"
        = m.txnCounter "completed" + 1
    ∧ (∀ s, s ≠ "completed" →
        ((createTransaction (DecodeResult.decoded req) insert).metricsF m).txnCounter s
          = m.txnCounter s)
    ∧ ((createTransaction (DecodeResult.decoded req) insert).metricsF m).txnValueSum
        = m.txnValueSum + req.Value
    ∧ ((createTransaction (DecodeResult.decoded req) insert).metricsF m).txnErrorCounter
        = m.txnErrorCounter
    ∧ (createTransaction (DecodeResult.decoded req) insert).storeOps
        = [StoreOp.insertTxn req.Value req.Timestamp] := by
  simp only [createTransaction]
  rw [if_neg (not_le.mpr hpos), hins]
  refine ⟨rfl, rfl, ?_, ?_, rfl, rfl, rfl⟩
  · simp [incAt1]
  · intro s hs
    simp [incAt1, hs]

/-- C2 witness: the scenario POST value 150.75 with a store that persists the
row as id 1. -/
theorem createTransaction_success_effects_witness :
    (createTransaction (DecodeResult.decoded sampleReq)
        (fun _ => InsertResult.inserted sampleTxn)).ops
      = [WriterOp.writeHeader 201, WriterOp.write (Chunk.jsonDoc (encodeTransaction sampleTxn))]
    ∧ ((createTransaction (DecodeResult.decoded sampleReq)
        (fun _ => InsertResult.inserted sampleTxn)).metricsF
        initialMetrics).txnCounter "completed" = 1
    ∧ ((createTransaction (DecodeResult.decoded sampleReq)
        (fun _ => InsertResult.inserted sampleTxn)).metricsF
        initialMetrics).txnValueSum = 150.75 := by
  have h := createTransaction_success_effects sampleReq
    (fun _ => InsertResult.inserted sampleTxn) sampleTxn
    initialMetrics (by norm_num [sampleReq]) rfl
  refine ⟨h.1, ?_, ?_⟩
  · rw [h.2.2.1]
    rfl
  · rw [h.2.2.2.2.1]
    norm_num [initialMetrics, sampleReq]

/-- C3 (confirmed): when the body decodes but the value is nonpositive,
Create responds 400, increments transactions_errors_total by exactly one,
leaves the business counter and gauge unchanged, and issues no store
operation at all. -/
theorem createTransaction_rejects_nonpositive (req : TransactionRequest)
    (insert : TransactionRequest → InsertResult) (m : Metrics)
    (h : req.Value ≤ 0) :
    handlerStatus (createTransaction (DecodeResult.decoded req) insert) = 400
    ∧ ((createTransaction (DecodeResult.decoded req) insert).metricsF m).txnErrorCounter
        = m.txnErrorCounter + 1
    ∧ ((createTransaction (DecodeResult.decoded req) insert).metricsF m).txnCounter
        = m.txnCounter
    ∧ ((createTransaction (DecodeResult.decoded req) insert).metricsF m).txnValueSum
        = m.txnValueSum
    ∧ (createTransaction (DecodeResult.decoded req) insert).storeOps = [] := by
  simp only [createTransaction]
  rw [if_pos h]
  exact ⟨rfl, rfl, rfl, rfl, rfl⟩

/-- C3 witness: the scenario POST value -5: status 400, error counter goes
from 0 to 1, no store operation. -/
theorem createTransaction_rejects_nonpositive_witness :
    handlerStatus (createTransaction
        (DecodeResult.decoded { Value := -5, Timestamp := "2025-08-20T14:30:00Z" })
        (fun _ => InsertResult.insertErr "unused")) = 400
    ∧ ((createTransaction
        (DecodeResult.decoded { Value := -5, Timestamp := "2025-08-20T14:30:00Z" })
        (fun _ => InsertResult.insertErr "unused")).metricsF initialMetrics).txnErrorCounter = 1
    ∧ (createTransaction
        (DecodeResult.decoded { Value := -5, Timestamp := "2025-08-20T14:30:00Z" })
        (fun _ => InsertResult.insertErr "unused")).storeOps = [] := by
  have h := createTransaction_rejects_nonpositive
    { Value := -5, Timestamp := "2025-08-20T14:30:00Z" }
    (fun _ => InsertResult.insertErr "unused") initialMetrics (by norm_num)
  exact ⟨h.1, by rw [h.2.1]; rfl, h.2.2.2.2⟩

/-- C5 (confirmed): every store failure maps to 500, and only the Create
path increments transactions_errors_total: a failed insert increments it by
exactly one and changes nothing else in the metrics record, while store
errors in List and Get leave the metrics record entirely unchanged. -/
theorem storeError_responses :
    (∀ (req : TransactionRequest) (insert : TransactionRequest → InsertResult)
        (msg : String) (m : Metrics),
      0 < req.Value → insert req = InsertResult.insertErr msg →
      handlerStatus (createTransaction (DecodeResult.decoded req) insert) = 500
      ∧ (createTransaction (DecodeResult.decoded req) insert).metricsF m
          = { m with txnErrorCounter := m.txnErrorCounter + 1 })
    ∧ (∀ (l o : String) (query : Int → Int → QueryResult) (msg : String) (m : Metrics),
      query (parseLimit l) (parseOffset o) = QueryResult.queryErr msg →
      handlerStatus (listTransactions l o query) = 500
      ∧ (listTransactions l o query).metricsF m = m)
    ∧ (∀ (lookup : String → GetResult) (id msg : String) (m : Metrics),
      lookup id = GetResult.getErr msg →
      handlerStatus (getTransaction lookup id) = 500
      ∧ (getTransaction lookup id).metricsF m = m) := by
  refine ⟨?_, ?_, ?_⟩
  · intro req insert msg m hpos herr
    simp only [createTransaction]
    rw [if_neg (not_le.mpr hpos), herr]
    exact ⟨rfl, rfl⟩
  · intro l o query msg m hq
    simp only [listTransactions, hq]
    exact ⟨rfl, trivial⟩
  · intro lookup id msg m hq
    simp only [getTransaction, hq]
    exact ⟨rfl, trivial⟩

/-- C5 witness: a failing store yields 500 on all three handlers at concrete
inputs; the create instance also shows the error counter moving 0 to 1 while
the other instruments stay at their initial values. -/
theorem storeError_responses_witness :
    (handlerStatus (createTransaction
        (DecodeResult.decoded { Value := 1, Timestamp := "t" })
        (fun _ => InsertResult.insertErr "connection refused")) = 500
      ∧ (createTransaction (DecodeResult.decoded { Value := 1, Timestamp := "t" })
          (fun _ => InsertResult.insertErr "connection refused")).metricsF initialMetrics
        = { initialMetrics with txnErrorCounter := 1 })
    ∧ handlerStatus (listTransactions "" ""
        (fun _ _ => QueryResult.queryErr "connection refused")) = 500
    ∧ handlerStatus (getTransaction
        (fun _ => GetResult.getErr "connection refused") "1") = 500 :=
  ⟨storeError_responses.1 { Value := 1, Timestamp := "t" }
      (fun _ => InsertResult.insertErr "connection refused") "connection refused"
      initialMetrics (by norm_num) rfl,
   (storeError_responses.2.1 "" "" (fun _ _ => QueryResult.queryErr "connection refused")
      "connection refused" initialMetrics rfl).1,
   (storeError_responses.2.2 (fun _ => GetResult.getErr "connection refused") "1"
      "connection refused" initialMetrics rfl).1⟩

/-- C7 (corrected): when the store query succeeds the List handler responds
with the implicit 200 and writes exactly one JSON document: with at least
one decodable row it is the JSON array of the decoded rows, but with zero
decodable rows it is JSON null, because Go marshals the handler's nil slice
as null rather than as the empty array. -/
theorem listTransactions_success_response (l o : String)
    (query : Int → Int → QueryResult) (rows : List RowResult)
    (h : query (parseLimit l) (parseOffset o) = QueryResult.rowsOk rows) :
    handlerStatus (listTransactions l o query) = 200
    ∧ responseDocs (listTransactions l o query) = [goEncodeTxnSlice (decodeRows rows)]
    ∧ (decodeRows rows = [] → goEncodeTxnSlice (decodeRows rows) = Json.null)
    ∧ (decodeRows rows ≠ [] →
        goEncodeTxnSlice (decodeRows rows)
          = Json.arr ((decodeRows rows).map encodeTransaction)) := by
  refine ⟨?_, ?_, fun he => by simp [goEncodeTxnSlice, he], fun hne => by
    simp [goEncodeTxnSlice, hne]⟩
  · simp only [listTransactions, h]
    rfl
  · simp only [listTransactions, h]
    rfl

/-- C7 counterexample: with a successful query returning zero rows the body
document is JSON null, not the empty JSON array. -/
theorem listTransactions_empty_body_counterexample :
    responseDocs (listTransactions "" "" (fun _ _ => QueryResult.rowsOk [])) = [Json.null]
    ∧ Json.null ≠ Json.arr [] :=
  ⟨rfl, fun h => Json.noConfusion h⟩

/-- C7 witness: a successful query with one decoded row yields 200 and the
singleton JSON array; one with no rows yields 200 and JSON null. -/
theorem listTransactions_success_response_witness :
    (handlerStatus (listTransactions "" "" (fun _ _ => QueryResult.rowsOk [])) = 200
      ∧ goEncodeTxnSlice (decodeRows ([] : List RowResult)) = Json.null)
    ∧ (handlerStatus (listTransactions "" ""
          (fun _ _ => QueryResult.rowsOk [RowResult.row rowTxn])) = 200
      ∧ goEncodeTxnSlice (decodeRows [RowResult.row rowTxn])
        = Json.arr [encodeTransaction rowTxn]) := by
  have h0 := listTransactions_success_response "" "" (fun _ _ => QueryResult.rowsOk []) [] rfl
  have h1 := listTransactions_success_response "" ""
    (fun _ _ => QueryResult.rowsOk [RowResult.row rowTxn]) [RowResult.row rowTxn] rfl
  refine ⟨⟨h0.1, h0.2.2.1 rfl⟩, ⟨h1.1, ?_⟩⟩
  have hh := h1.2.2.2 (by intro hc; cases hc)
  exact hh

/-- Helper: the conditional request-size observation in the middleware
changes only the http_request_size histogram; every other instrument
projection is untouched. -/
theorem requestSizeBranch_projections (m : Metrics) (path method : String) (cl : Int) :
    (if 0 < cl then { m with httpRequestSize := observeAt2 m.httpRequestSize (path, method) ((cl : ℚ)) } else m).httpRequests = m.httpRequests
    ∧ (if 0 < cl then { m with httpRequestSize := observeAt2 m.httpRequestSize (path, method) ((cl : ℚ)) } else m).httpDuration = m.httpDuration
    ∧ (if 0 < cl then { m with httpRequestSize := observeAt2 m.httpRequestSize (path, method) ((cl : ℚ)) } else m).httpResponseSize = m.httpResponseSize
    ∧ (if 0 < cl then { m with httpRequestSize := observeAt2 m.httpRequestSize (path, method) ((cl : ℚ)) } else m).txnCounter = m.txnCounter
    ∧ (if 0 < cl then { m with httpRequestSize := observeAt2 m.httpRequestSize (path, method) ((cl : ℚ)) } else m).txnErrorCounter = m.txnErrorCounter
    ∧ (if 0 < cl then { m with httpRequestSize := observeAt2 m.httpRequestSize (path, method) ((cl : ℚ)) } else m).txnValueSum = m.txnValueSum := by
  split <;> exact ⟨rfl, rfl, rfl, rfl, rfl, rfl⟩

/-- C6 (confirmed): the effective limit is the parsed limit parameter
exactly when it parses as an integer in (0, 100] and is 50 otherwise — in
particular limit 500 falls back to 50 — the effective offset is the parsed
offset exactly when it parses as a nonnegative integer and is 0 otherwise,
the pair actually reaches the store query, and no parameter value ever
produces an error response: a successful query always answers 200. -/
theorem listTransactions_pagination :
    (∀ (l : String) (v : Int), goAtoi l = some v → 0 < v → v ≤ 100 → parseLimit l = v)
    ∧ (∀ l : String, (∀ v : Int, goAtoi l = some v → ¬(0 < v ∧ v ≤ 100)) → parseLimit l = 50)
    ∧ parseLimit "500" = 50
    ∧ (∀ (o : String) (v : Int), goAtoi o = some v → 0 ≤ v → parseOffset o = v)
    ∧ (∀ o : String, (∀ v : Int, goAtoi o = some v → ¬(0 ≤ v)) → parseOffset o = 0)
    ∧ (∀ (l o : String) (query : Int → Int → QueryResult) (rows : List RowResult),
        query (parseLimit l) (parseOffset o) = QueryResult.rowsOk rows →
        handlerStatus (listTransactions l o query) = 200)
    ∧ (∀ (l o : String) (query : Int → Int → QueryResult),
        (listTransactions l o query).storeOps
          = [StoreOp.selectList (parseLimit l) (parseOffset o)]) := by
  refine ⟨?_, ?_, rfl, ?_, ?_, ?_, ?_⟩
  · intro l v h h0 h100
    have hne : l ≠ "" := by
      intro he
      rw [he] at h
      exact Option.noConfusion (show (none : Option Int) = some v from h)
    simp [parseLimit, hne, h, h0, h100]
  · intro l hno
    by_cases he : l = ""
    · simp [parseLimit, he]
    · cases hq : goAtoi l with
      | none => simp [parseLimit, he, hq]
      | some v =>
          have hv := hno v hq
          simp [parseLimit, he, hq, hv]
  · intro o v h h0
    have hne : o ≠ "" := by
      intro he
      rw [he] at h
      exact Option.noConfusion (show (none : Option Int) = some v from h)
    simp [parseOffset, hne, h, h0]
  · intro o hno
    by_cases he : o = ""
    · simp [parseOffset, he]
    · cases hq : goAtoi o with
      | none => simp [parseOffset, he, hq]
      | some v =>
          have hv := hno v hq
          simp [parseOffset, he, hq, hv]
  · intro l o query rows hq
    simp only [listTransactions, hq]
    rfl
  · intro l o query
    cases hq : query (parseLimit l) (parseOffset o) <;> simp [listTransactions, hq]

/-- C6 witness: limit 500 is clamped to the default 50, a negative offset
falls back to 0, in-range values are taken verbatim, and a request carrying
both out-of-range parameters still answers 200 when the store succeeds. -/
theorem listTransactions_pagination_witness :
    parseLimit "500" = 50
    ∧ parseLimit "7" = 7
    ∧ parseOffset "-1" = 0
    ∧ parseOffset "3" = 3
    ∧ handlerStatus (listTransactions "500" "-1" (fun _ _ => QueryResult.rowsOk [])) = 200 :=
  ⟨listTransactions_pagination.2.2.1,
   listTransactions_pagination.1 "7" 7 rfl (by norm_num) (by norm_num),
   listTransactions_pagination.2.2.2.2.1 "-1" (by
      intro v hv
      injection hv with hv2
      subst hv2
      decide),
   listTransactions_pagination.2.2.2.1 "3" 3 rfl (by norm_num),
   listTransactions_pagination.2.2.2.2.2.1 "500" "-1"
      (fun _ _ => QueryResult.rowsOk []) [] rfl⟩

/-- C1 (confirmed): for every request completed through the middleware, the
registry gains exactly one increment of http_requests_total, exactly one
observation of http_request_duration_seconds and exactly one observation of
http_response_size_bytes, all at the same (path, method, status_code)
labels with the status code taken from the decorated writer, and every
other label combination of those instruments is untouched; a handler that
never calls WriteHeader leaves the default success code 200, so the status
label is never empty.  The hypotheses state that the handler itself touches
none of the three HTTP instruments, as holds for all handlers in main.go. -/
theorem metricsMiddleware_records_once (ops : List WriterOp) (hm : Metrics → Metrics)
    (path method : String) (contentLength : Int) (duration : ℚ)
    (u : UnderlyingWriter) (m mw : Metrics) (w : responseWriter)
    (hrun : metricsMiddleware ops hm path method contentLength duration u m = (mw, w))
    (hReq : ∀ x, (hm x).httpRequests = x.httpRequests)
    (hDur : ∀ x, (hm x).httpDuration = x.httpDuration)
    (hResp : ∀ x, (hm x).httpResponseSize = x.httpResponseSize) :
    mw.httpRequests (path, method, toString w.statusCode)
        = m.httpRequests (path, method, toString w.statusCode) + 1
    ∧ (∀ k, k ≠ (path, method, toString w.statusCode) → mw.httpRequests k = m.httpRequests k)
    ∧ mw.httpDuration (path, method, toString w.statusCode)
        = m.httpDuration (path, method, toString w.statusCode) ++ [duration]
    ∧ (∀ k, k ≠ (path, method, toString w.statusCode) → mw.httpDuration k = m.httpDuration k)
    ∧ mw.httpResponseSize (path, method, toString w.statusCode)
        = m.httpResponseSize (path, method, toString w.statusCode) ++ [(w.size : ℚ)]
    ∧ (∀ k, k ≠ (path, method, toString w.statusCode) →
        mw.httpResponseSize k = m.httpResponseSize k)
    ∧ ((∀ c, WriterOp.writeHeader c ∉ ops) → w.statusCode = 200) := by
  have h1 : mw = (metricsMiddleware ops hm path method contentLength duration u m).1 :=
    (congrArg Prod.fst hrun).symm
  have h2 : w = (metricsMiddleware ops hm path method contentLength duration u m).2 :=
    (congrArg Prod.snd hrun).symm
  subst h1
  subst h2
  have hb := requestSizeBranch_projections m path method contentLength
  have hm1req := hb.1
  have hm1dur := hb.2.1
  have hm1resp := hb.2.2.1
  simp only [metricsMiddleware]
  refine ⟨?_, ?_, ?_, ?_, ?_, ?_, ?_⟩
  · simp [incAt3, hReq, hm1req]
  · intro k hk
    simp [incAt3, hReq, hm1req, hk]
  · simp [observeAt3, hDur, hm1dur]
  · intro k hk
    simp [observeAt3, hDur, hm1dur, hk]
  · simp [observeAt3, hResp, hm1resp]
  · intro k hk
    simp [observeAt3, hResp, hm1resp, hk]
  · intro hno
    rw [runWriterOps_statusCode]
    exact lastCode_of_no_header ops 200 hno

/-- C1 witness: one concrete request through the middleware, a handler that
writes 201 and no body: the request counter at the 201 label moves 0 to 1
and each of the two histograms at that label gains exactly one
observation. -/
theorem metricsMiddleware_records_once_witness :
    (metricsMiddleware [WriterOp.writeHeader 201] (fun x => x) "/transactions" "POST" 42
        (1/100) silentUnderlying initialMetrics).1.httpRequests
        ("/transactions", "POST", "201") = 1
    ∧ (metricsMiddleware [WriterOp.writeHeader 201] (fun x => x) "/transactions" "POST" 42
        (1/100) silentUnderlying initialMetrics).1.httpDuration
        ("/transactions", "POST", "201") = [1/100]
    ∧ (metricsMiddleware [WriterOp.writeHeader 201] (fun x => x) "/transactions" "POST" 42
        (1/100) silentUnderlying initialMetrics).1.httpResponseSize
        ("/transactions", "POST", "201") = [((0 : Int) : ℚ)] := by
  have h := metricsMiddleware_records_once [WriterOp.writeHeader 201] (fun x => x)
    "/transactions" "POST" 42 (1/100) silentUnderlying initialMetrics
    (metricsMiddleware [WriterOp.writeHeader 201] (fun x => x) "/transactions" "POST" 42
      (1/100) silentUnderlying initialMetrics).1
    (metricsMiddleware [WriterOp.writeHeader 201] (fun x => x) "/transactions" "POST" 42
      (1/100) silentUnderlying initialMetrics).2
    rfl (fun _ => rfl) (fun _ => rfl) (fun _ => rfl)
  exact ⟨h.1, h.2.2.1, h.2.2.2.2.1⟩

/-- C8 (corrected): Get on an absent identifier returns 404 and leaves every
business instrument unchanged — transactions_total, transactions_errors_total
and transactions_value_sum keep their values — but the middleware still
records the request itself: http_requests_total at the (path, method, 404)
label is incremented by one. -/
theorem getTransaction_notfound_effects
    (lookup : String → GetResult) (id path method : String) (contentLength : Int)
    (duration : ℚ) (u : UnderlyingWriter) (m : Metrics)
    (h : lookup id = GetResult.noRows) :
    (serveWith (getTransaction lookup id) path method contentLength duration
        u m).2.statusCode = 404
    ∧ (serveWith (getTransaction lookup id) path method contentLength duration
        u m).1.txnCounter = m.txnCounter
    ∧ (serveWith (getTransaction lookup id) path method contentLength duration
        u m).1.txnErrorCounter = m.txnErrorCounter
    ∧ (serveWith (getTransaction lookup id) path method contentLength duration
        u m).1.txnValueSum = m.txnValueSum
    ∧ (serveWith (getTransaction lookup id) path method contentLength duration
        u m).1.httpRequests (path, method, "404")
        = m.httpRequests (path, method, "404") + 1 := by
  simp only [serveWith, getTransaction, h, metricsMiddleware]
  refine ⟨rfl, ?_, ?_, ?_, ?_⟩
  · split <;> rfl
  · split <;> rfl
  · split <;> rfl
  · have ht : toString ((runWriterOps
        [WriterOp.writeHeader 404, WriterOp.write (Chunk.text "Transaction not found\n")]
        { underlying := u, statusCode := 200, size := 0 }).statusCode) = "404" := rfl
    rw [ht]
    have hm1 := (requestSizeBranch_projections m path method contentLength).1
    simp [incAt3, hm1]

/-- C8 counterexample: a Get for the absent id 999999 through the
middleware-wrapped handler does change a counter: http_requests_total at the
(path, GET, 404) label goes from 0 to 1, so not all counters are left
unchanged. -/
theorem getTransaction_notfound_counters_counterexample :
    (serveWith (getTransaction (fun _ => GetResult.noRows) "999999")
        "/transactions/999999" "GET" 0 0 silentUnderlying initialMetrics).2.statusCode = 404
    ∧ (serveWith (getTransaction (fun _ => GetResult.noRows) "999999")
        "/transactions/999999" "GET" 0 0 silentUnderlying initialMetrics).1.httpRequests
        ("/transactions/999999", "GET", "404") = 1
    ∧ initialMetrics.httpRequests ("/transactions/999999", "GET", "404") = 0 :=
  ⟨rfl, rfl, rfl⟩

/-- C8 witness: the amended statement at the concrete absent id 999999: 404,
business counters untouched at their initial values, HTTP request counter at
the 404 label incremented to one. -/
theorem getTransaction_notfound_effects_witness :
    (serveWith (getTransaction (fun _ => GetResult.noRows) "999999")
        "/transactions/999999" "GET" 0 0 silentUnderlying initialMetrics).2.statusCode = 404
    ∧ (serveWith (getTransaction (fun _ => GetResult.noRows) "999999")
        "/transactions/999999" "GET" 0 0 silentUnderlying initialMetrics).1.txnCounter
      = initialMetrics.txnCounter
    ∧ (serveWith (getTransaction (fun _ => GetResult.noRows) "999999")
        "/transactions/999999" "GET" 0 0 silentUnderlying initialMetrics).1.httpRequests
        ("/transactions/999999", "GET", "404")
      = initialMetrics.httpRequests ("/transactions/999999", "GET", "404") + 1 := by
  have h := getTransaction_notfound_effects (fun _ => GetResult.noRows) "999999"
    "/transactions/999999" "GET" 0 0 silentUnderlying initialMetrics rfl
  exact ⟨h.1, h.2.1, h.2.2.2.2⟩

end SreTech
